import Mathlib

/-!
Shallow embedding of `app.py`: a small Flask + SQLite web application with
account registration/login, a per-user note, a tic-tac-toe leaderboard and
game-stats counters, and a stub word-game page.

The relational store is modelled as lists of rows (`DB`); the browser session
cookie as `Option Sess`.  Each Flask handler becomes a Lean function from the
pre-state (database, session, request data) to its HTTP-level response and the
post-state.  Timestamps (`CURRENT_TIMESTAMP`) are an abstract `Nat` supplied as
a `now` parameter.  Surrogate `id` columns of the `notes` and `game_stats`
tables are omitted: no handler ever reads them (existence checks and updates
all go through `user_id`).  The `created_at` column of `users` is likewise
omitted: it is written by the store's default and read by no handler.
Password hashing (werkzeug's `generate_password_hash` /
`check_password_hash`) is external to the code under specification; it is
modelled as an injective tagging function together with the matching check.
-/

namespace App

/-- Row of the `users` table. -/
structure Account where
  id : Nat
  username : String
  email : String
  password_hash : String
  deriving Repr, DecidableEq

/-- Row of the `notes` table (surrogate id omitted, see module comment). -/
structure Note where
  user_id : Nat
  content : String
  last_updated : Nat
  deriving Repr, DecidableEq

/-- Row of the `game_stats` table (surrogate id omitted).  Counters are `Int`
so that non-negativity is a provable invariant rather than a typing artifact. -/
structure GameStats where
  user_id : Nat
  wins : Int
  losses : Int
  ties : Int
  deriving Repr, DecidableEq

/-- The persisted store: the three tables created by `init_db`. -/
structure DB where
  users : List Account
  notes : List Note
  game_stats : List GameStats
  deriving Repr, DecidableEq

/-- The browser session after login: `session['user_id']` and
`session['username']`. -/
structure Sess where
  user_id : Nat
  username : String
  deriving Repr, DecidableEq

/-- Model of werkzeug's `generate_password_hash` (external collaborator,
out of scope per the spec): an injective tagging of the password. -/
def generate_password_hash (password : String) : String :=
  "pbkdf2-sha256$" ++ password

/-- Model of werkzeug's `check_password_hash`: succeeds exactly when the
stored hash was generated from this password. -/
def check_password_hash (hash password : String) : Bool :=
  hash == generate_password_hash password

/-- The id `AUTOINCREMENT` assigns to the next inserted `users` row:
one more than the largest id ever used (rows are never deleted, so this is
one more than the largest present id). -/
def next_user_id (db : DB) : Nat :=
  (db.users.map (fun u => u.id)).foldr max 0 + 1

/-- `get_user` (app.py line 58): `SELECT * FROM users WHERE username = ?`,
first matching row or none. -/
def get_user (db : DB) (username : String) : Option Account :=
  db.users.find? (fun u => u.username == username)

/-- `init_db` (app.py line 12): creates the tables and inserts the demo
account with `INSERT OR IGNORE`, which ignores the insert when the UNIQUE
constraint on username or email would be violated. -/
def init_db (db : DB) : DB :=
  if db.users.any (fun u => u.username == "demo" || u.email == "demo@example.com") then
    db
  else
    ⟨db.users ++ [⟨next_user_id db, "demo", "demo@example.com",
        generate_password_hash "demo123"⟩],
      db.notes, db.game_stats⟩

/-- Outcome of the login POST handler. -/
inductive LoginResult where
  | redirect_dashboard
  | render_login_flash (msg : String)
  deriving Repr, DecidableEq

/-- `login` POST branch (app.py line 75): look up by username, check the
hash; on success store id and username in the session and redirect to the
dashboard; otherwise flash the generic message and re-render the form,
leaving the session as it was. -/
def login (db : DB) (sess : Option Sess) (username password : String) :
    LoginResult × Option Sess :=
  match get_user db username with
  | some user =>
      if check_password_hash user.password_hash password then
        (LoginResult.redirect_dashboard, some ⟨user.id, user.username⟩)
      else
        (LoginResult.render_login_flash "Invalid username or password", sess)
  | none => (LoginResult.render_login_flash "Invalid username or password", sess)

/-- Outcome of the register POST handler. -/
inductive RegisterResult where
  | redirect_login
  | render_register_flash (msg : String)
  deriving Repr, DecidableEq

/-- `register` POST branch (app.py line 94): a username pre-check via
`get_user`, then the INSERT; `sqlite3.IntegrityError` fires exactly when the
UNIQUE constraint on username or email is violated by an existing row, and
rolls the insert back. -/
def register (db : DB) (username email password : String) :
    RegisterResult × DB :=
  if (get_user db username).isSome then
    (RegisterResult.render_register_flash "Username already exists", db)
  else if db.users.any (fun u => u.username == username || u.email == email) then
    (RegisterResult.render_register_flash "Username or email already exists", db)
  else
    (RegisterResult.redirect_login,
      ⟨db.users ++ [⟨next_user_id db, username, email,
          generate_password_hash password⟩],
        db.notes, db.game_stats⟩)

/-- Response of the notepad handler: redirect to login, or the rendered page
carrying the note content and the raw optional timestamp. -/
inductive NotepadResponse where
  | redirect_login
  | page (notes : String) (last_saved : Option Nat)
  deriving Repr, DecidableEq

/-- The POST save block of `notepad` (app.py lines 144-164): UPDATE the
existing row's content and set `last_updated = CURRENT_TIMESTAMP` when a row
for this user exists, INSERT a new row otherwise (whose `last_updated` takes
the column default `CURRENT_TIMESTAMP`). -/
def notepad_save (db : DB) (uid : Nat) (notes_content : String) (now : Nat) : DB :=
  match db.notes.find? (fun n => n.user_id == uid) with
  | some _ =>
      ⟨db.users,
        db.notes.map (fun n =>
          if n.user_id == uid then ⟨n.user_id, notes_content, now⟩ else n),
        db.game_stats⟩
  | none => ⟨db.users, db.notes ++ [⟨uid, notes_content, now⟩], db.game_stats⟩

/-- The fetch-and-render block of `notepad` (app.py lines 167-188): read the
row and render its content (default empty) with the raw optional timestamp. -/
def notepad_fetch (db : DB) (uid : Nat) : NotepadResponse :=
  match db.notes.find? (fun n => n.user_id == uid) with
  | some n => NotepadResponse.page n.content (some n.last_updated)
  | none => NotepadResponse.page "" none

/-- `notepad` (app.py line 133): session gate first; on POST run the save
block, then fetch the row and render.  `post` is the POSTed form field
`notes`, `none` for a GET request. -/
def notepad (db : DB) (sess : Option Sess) (post : Option String) (now : Nat) :
    NotepadResponse × DB :=
  match sess with
  | none => (NotepadResponse.redirect_login, db)
  | some s =>
    let db1 : DB :=
      match post with
      | some notes_content => notepad_save db s.user_id notes_content now
      | none => db
    (notepad_fetch db1 s.user_id, db1)

/-- Response of the tictactoe page handler. -/
inductive TictactoeResponse where
  | redirect_login
  | page (leaderboard : List (String × Int))
  deriving Repr, DecidableEq

/-- Join of the leaderboard query (app.py line 200) before ORDER BY/LIMIT:
`users JOIN game_stats ON u.id = g.user_id WHERE g.wins > 0`, scanning the
`users` table and probing `game_stats` in storage order. -/
def leaderboard_rows (db : DB) : List (String × Int) :=
  db.users.flatMap (fun u =>
    db.game_stats.filterMap (fun g =>
      if g.user_id = u.id ∧ 0 < g.wins then some (u.username, g.wins)
      else none))

/-- Insertion step of the stable descending-by-wins sort modelling
`ORDER BY g.wins DESC`. -/
def lbInsert (p : String × Int) : List (String × Int) → List (String × Int)
  | [] => [p]
  | q :: rest => if q.2 ≤ p.2 then p :: q :: rest else q :: lbInsert p rest

/-- Stable sort by wins descending, modelling `ORDER BY g.wins DESC`
(relative order of tied rows is engine-dependent in SQLite; the model fixes
the stable order). -/
def lbSort : List (String × Int) → List (String × Int)
  | [] => []
  | p :: rest => lbInsert p (lbSort rest)

/-- The full leaderboard query (app.py line 200): join, filter `wins > 0`,
sort descending by wins, `LIMIT 5`. -/
def leaderboard_query (db : DB) : List (String × Int) :=
  (lbSort (leaderboard_rows db)).take 5

/-- `tictactoe` (app.py line 190): session gate, then render the page with
the leaderboard.  The handler performs no write. -/
def tictactoe (db : DB) (sess : Option Sess) : TictactoeResponse :=
  match sess with
  | none => TictactoeResponse.redirect_login
  | some _ => TictactoeResponse.page (leaderboard_query db)

/-- JSON response of the stats-update API: `({'status':'error'}, 401)` or
`{'status':'success'}`. -/
inductive StatsResponse where
  | unauthorized
  | success
  deriving Repr, DecidableEq

/-- `update_game_stats` (app.py line 213): session gate (401 on failure),
then read the user's `game_stats` row; if present, bump the counter selected
by `result` (if/elif chain) and UPDATE every row of this user to the computed
values; otherwise INSERT a fresh row whose counters are 1 where `result`
matches and 0 elsewhere.  `result` is `request.json.get('result')`, `none`
when the field is absent. -/
def update_game_stats (db : DB) (sess : Option Sess) (result : Option String) :
    StatsResponse × DB :=
  match sess with
  | none => (StatsResponse.unauthorized, db)
  | some s =>
    match db.game_stats.find? (fun g => g.user_id == s.user_id) with
    | some st =>
        let wlt : Int × Int × Int :=
          if result == some "win" then (st.wins + 1, st.losses, st.ties)
          else if result == some "loss" then (st.wins, st.losses + 1, st.ties)
          else if result == some "tie" then (st.wins, st.losses, st.ties + 1)
          else (st.wins, st.losses, st.ties)
        (StatsResponse.success,
          ⟨db.users, db.notes,
            db.game_stats.map (fun g =>
              if g.user_id == s.user_id then
                ⟨g.user_id, wlt.1, wlt.2.1, wlt.2.2⟩
              else g)⟩)
    | none =>
        let wins : Int := if result == some "win" then 1 else 0
        let losses : Int := if result == some "loss" then 1 else 0
        let ties : Int := if result == some "tie" then 1 else 0
        (StatsResponse.success,
          ⟨db.users, db.notes, db.game_stats ++ [⟨s.user_id, wins, losses, ties⟩]⟩)

/-- Response of the simple page handlers (dashboard, wordgame). -/
inductive PageResponse where
  | redirect_login
  | page (username : String)
  deriving Repr, DecidableEq

/-- `dashboard` (app.py line 124): session gate, then render. -/
def dashboard (sess : Option Sess) : PageResponse :=
  match sess with
  | none => PageResponse.redirect_login
  | some s => PageResponse.page s.username

/-- `wordgame` (app.py line 257): session gate, then render the stub page.
The handler touches no storage at all. -/
def wordgame (sess : Option Sess) : PageResponse :=
  match sess with
  | none => PageResponse.redirect_login
  | some s => PageResponse.page s.username

/-- `logout` (app.py line 266): clear the session, redirect to landing. -/
def logout (_sess : Option Sess) : Option Sess :=
  none

/-- One inbound request, covering every route of the application plus the
startup `init_db` call. -/
inductive Req where
  | landing
  | login_post (username password : String)
  | register_post (username email password : String)
  | dashboard_get
  | notepad_req (post : Option String) (now : Nat)
  | tictactoe_get
  | update_stats (result : Option String)
  | wordgame_get
  | logout_get
  | startup
  deriving Repr, DecidableEq

/-- The global transition: dispatch one request to its handler and return the
post-state (database, session). -/
def step (db : DB) (sess : Option Sess) : Req → DB × Option Sess
  | Req.landing => (db, sess)
  | Req.login_post u p => (db, (login db sess u p).2)
  | Req.register_post u e p => ((register db u e p).2, sess)
  | Req.dashboard_get => (db, sess)
  | Req.notepad_req post now => ((notepad db sess post now).2, sess)
  | Req.tictactoe_get => (db, sess)
  | Req.update_stats r => ((update_game_stats db sess r).2, sess)
  | Req.wordgame_get => (db, sess)
  | Req.logout_get => (db, logout sess)
  | Req.startup => (init_db db, sess)

/-- The first (and per the invariant only) `game_stats` row of an account. -/
def statsOf (db : DB) (uid : Nat) : Option GameStats :=
  db.game_stats.find? (fun g => g.user_id == uid)

/-- Number of `notes` rows owned by an account. -/
def noteCount (db : DB) (uid : Nat) : Nat :=
  db.notes.countP (fun n => n.user_id == uid)

/-- Number of `game_stats` rows owned by an account. -/
def statsCount (db : DB) (uid : Nat) : Nat :=
  db.game_stats.countP (fun g => g.user_id == uid)

/-- Relational invariant of `game_stats`: at most one row per account
(UNIQUE(user_id)) and non-negative counters. -/
def statsInv (db : DB) : Prop :=
  (∀ uid, statsCount db uid ≤ 1) ∧
    ∀ g ∈ db.game_stats, 0 ≤ g.wins ∧ 0 ≤ g.losses ∧ 0 ≤ g.ties

/-- Foreign-key invariant: every `notes` and `game_stats` row points at an
existing `users` row. -/
def fkInv (db : DB) : Prop :=
  (∀ n ∈ db.notes, ∃ u ∈ db.users, u.id = n.user_id) ∧
    ∀ g ∈ db.game_stats, ∃ u ∈ db.users, u.id = g.user_id

/-- Fold a sequence of reported results through the stats-update handler,
modelling several consecutive POSTs to `/update_game_stats`. -/
def run_results (db : DB) (sess : Option Sess) : List (Option String) → DB
  | [] => db
  | r :: rest => run_results (update_game_stats db sess r).2 sess rest

/-- Fold a sequence of notepad saves (content and timestamp of each POST)
through the notepad handler. -/
def run_saves (db : DB) (s : Sess) : List (String × Nat) → DB
  | [] => db
  | (c, t) :: rest => run_saves (notepad db (some s) (some c) t).2 s rest

/-!  General list helper lemmas used throughout the development. -/

/-- A `find?` through a map commutes when the map does not change the
predicate's verdict on any element. -/
theorem find?_map_pres {α : Type} (p : α → Bool) (f : α → α)
    (hf : ∀ a, p (f a) = p a) (l : List α) :
    (l.map f).find? p = (l.find? p).map f := by
  rw [List.find?_map]
  rw [show p ∘ f = p from funext hf]

/-- Counting through a map is unchanged when the map does not change the
predicate's verdict on any element. -/
theorem countP_map_pres {α : Type} (p : α → Bool) (f : α → α)
    (hf : ∀ a, p (f a) = p a) (l : List α) :
    (l.map f).countP p = l.countP p := by
  rw [List.countP_map]
  rw [show p ∘ f = p from funext hf]

/-- Every member of a list of naturals is bounded by its `foldr max 0`. -/
theorem le_foldr_max (a : Nat) (l : List Nat) (h : a ∈ l) :
    a ≤ l.foldr max 0 := by
  induction l with
  | nil => cases h
  | cons b t ih =>
      rcases List.mem_cons.mp h with h1 | h2
      · subst h1; exact Nat.le_max_left _ _
      · exact Nat.le_trans (ih h2) (Nat.le_max_right _ _)

/-- Ids of existing accounts are strictly below the next AUTOINCREMENT id. -/
theorem id_lt_next_user_id (db : DB) (u : Account) (hu : u ∈ db.users) :
    u.id < next_user_id db := by
  have : u.id ≤ (db.users.map (fun v => v.id)).foldr max 0 :=
    le_foldr_max _ _ (List.mem_map_of_mem _ hu)
  exact Nat.lt_succ_of_le this

/-- `register` never touches the `notes` or `game_stats` tables. -/
theorem register_preserves_other_tables (db : DB) (username email password : String) :
    (register db username email password).2.notes = db.notes ∧
      (register db username email password).2.game_stats = db.game_stats := by
  unfold register
  split
  · exact ⟨rfl, rfl⟩
  · split
    · exact ⟨rfl, rfl⟩
    · exact ⟨rfl, rfl⟩

/-- C1: a request with no authenticated session to a protected operation
returns without touching storage: the notepad, tictactoe and wordgame pages
redirect to login leaving the store untouched (the response is a constant,
independent of the store, so no storage read is observable), and the
stats-update API returns the 401 unauthorized response, which is distinct
from the success response, with the store unchanged. -/
theorem claim_C1_unauthenticated_touches_no_storage
    (db : DB) (post : Option String) (now : Nat) (result : Option String) :
    notepad db none post now = (NotepadResponse.redirect_login, db) ∧
    tictactoe db none = TictactoeResponse.redirect_login ∧
    wordgame none = PageResponse.redirect_login ∧
    update_game_stats db none result = (StatsResponse.unauthorized, db) ∧
    StatsResponse.unauthorized ≠ StatsResponse.success :=
  ⟨rfl, rfl, rfl, rfl, by decide⟩

/-- C3: whenever login fails — the username is absent, or present with a
password-hash mismatch — the handler produces the one generic flash message
and leaves the session exactly as it was (no session is established). -/
theorem claim_C3_login_failure_generic
    (db : DB) (sess : Option Sess) (username password : String)
    (h : ∀ u, get_user db username = some u →
      check_password_hash u.password_hash password = false) :
    login db sess username password =
      (LoginResult.render_login_flash "Invalid username or password", sess) := by
  unfold login
  cases hu : get_user db username with
  | none => rfl
  | some u => simp [h u hu]

/-- Witness for C3 at concrete inputs: a wrong password for an existing
account, and a nonexistent username, both yield the generic failure with the
session left empty. -/
theorem claim_C3_login_failure_generic_witness :
    login ⟨[⟨1, "alice", "a@x.com", generate_password_hash "pw"⟩], [], []⟩
        none "alice" "wrong" =
      (LoginResult.render_login_flash "Invalid username or password", none) ∧
    login ⟨[⟨1, "alice", "a@x.com", generate_password_hash "pw"⟩], [], []⟩
        none "bob" "pw" =
      (LoginResult.render_login_flash "Invalid username or password", none) := by
  constructor
  · apply claim_C3_login_failure_generic
    intro u hu
    have he : get_user ⟨[⟨1, "alice", "a@x.com", generate_password_hash "pw"⟩], [], []⟩
        "alice" = some ⟨1, "alice", "a@x.com", generate_password_hash "pw"⟩ := by decide
    rw [he] at hu
    rw [← Option.some.inj hu]
    decide
  · apply claim_C3_login_failure_generic
    intro u hu
    have he : get_user ⟨[⟨1, "alice", "a@x.com", generate_password_hash "pw"⟩], [], []⟩
        "bob" = none := by decide
    rw [he] at hu
    cases hu

/-- C10: an authenticated stats update for an account with no `game_stats`
row, whose result is none of win/loss/tie (including an absent result field),
still inserts a row with all three counters zero and reports success. -/
theorem claim_C10_unrecognized_result_creates_zero_row
    (db : DB) (s : Sess) (result : Option String)
    (h0 : statsOf db s.user_id = none)
    (hw : result ≠ some "win") (hl : result ≠ some "loss")
    (ht : result ≠ some "tie") :
    update_game_stats db (some s) result =
      (StatsResponse.success,
        ⟨db.users, db.notes, db.game_stats ++ [⟨s.user_id, 0, 0, 0⟩]⟩) := by
  unfold statsOf at h0
  simp only [update_game_stats, h0]
  simp [hw, hl, ht]

/-- Witness for C10: a one-user store, an authenticated request with the
result field absent, yields success and a fresh all-zero stats row. -/
theorem claim_C10_unrecognized_result_creates_zero_row_witness :
    update_game_stats ⟨[⟨1, "alice", "a@x.com", "h"⟩], [], []⟩
        (some ⟨1, "alice"⟩) none =
      (StatsResponse.success,
        ⟨[⟨1, "alice", "a@x.com", "h"⟩], [], [⟨1, 0, 0, 0⟩]⟩) :=
  claim_C10_unrecognized_result_creates_zero_row
    ⟨[⟨1, "alice", "a@x.com", "h"⟩], [], []⟩ ⟨1, "alice"⟩ none
    (by decide) (by decide) (by decide) (by decide)

/-- C9: reading the notepad for an account with no `notes` row returns empty
content and no timestamp, leaving the store unchanged; and a freshly
registered account (whose id is the fresh AUTOINCREMENT id) indeed has no
`notes` row and no `game_stats` row, provided the store satisfies its
foreign-key invariant. -/
theorem claim_C9_empty_note_read
    (db : DB) (s : Sess) (now : Nat) (u e p : String)
    (hn : db.notes.find? (fun n => n.user_id == s.user_id) = none) :
    notepad db (some s) none now = (NotepadResponse.page "" none, db) ∧
    (fkInv db →
      noteCount (register db u e p).2 (next_user_id db) = 0 ∧
      statsCount (register db u e p).2 (next_user_id db) = 0) := by
  constructor
  · simp only [notepad, notepad_fetch, hn]
  · intro hfk
    obtain ⟨hre1, hre2⟩ := register_preserves_other_tables db u e p
    constructor
    · rw [noteCount, hre1, List.countP_eq_zero]
      intro n hn2
      obtain ⟨uu, huu, hid⟩ := hfk.1 n hn2
      have hlt := id_lt_next_user_id db uu huu
      simp only [beq_iff_eq]
      omega
    · rw [statsCount, hre2, List.countP_eq_zero]
      intro g hg2
      obtain ⟨uu, huu, hid⟩ := hfk.2 g hg2
      have hlt := id_lt_next_user_id db uu huu
      simp only [beq_iff_eq]
      omega

/-- Witness for C9 at concrete inputs: an empty store, an authenticated
notepad GET, and a registration of a fresh account. -/
theorem claim_C9_empty_note_read_witness :
    notepad ⟨[], [], []⟩ (some ⟨1, "alice"⟩) none 5 =
      (NotepadResponse.page "" none, ⟨[], [], []⟩) ∧
    (noteCount (register ⟨[], [], []⟩ "bob" "b@x.com" "pw").2
        (next_user_id ⟨[], [], []⟩) = 0 ∧
      statsCount (register ⟨[], [], []⟩ "bob" "b@x.com" "pw").2
        (next_user_id ⟨[], [], []⟩) = 0) := by
  have h := claim_C9_empty_note_read ⟨[], [], []⟩ ⟨1, "alice"⟩ 5
    "bob" "b@x.com" "pw" (by decide)
  exact ⟨h.1, h.2 ⟨fun n hn2 => absurd hn2 (List.not_mem_nil n),
    fun g hg2 => absurd hg2 (List.not_mem_nil g)⟩⟩

/-- C2: registration fails — with a flash message and the store unchanged —
exactly when some existing account already holds the requested username or
the requested email; otherwise it succeeds and appends a new account row
carrying the hashed password. -/
theorem claim_C2_register_unique_username_email
    (db : DB) (username email password : String) :
    ((∃ u ∈ db.users, u.username = username ∨ u.email = email) →
      (∃ msg, (register db username email password).1 =
        RegisterResult.render_register_flash msg) ∧
      (register db username email password).2 = db) ∧
    ((¬ ∃ u ∈ db.users, u.username = username ∨ u.email = email) →
      (register db username email password).1 = RegisterResult.redirect_login ∧
      (register db username email password).2.users =
        db.users ++ [⟨next_user_id db, username, email,
          generate_password_hash password⟩]) := by
  have hany : db.users.any (fun u => u.username == username || u.email == email) = true ↔
      ∃ u ∈ db.users, u.username = username ∨ u.email = email := by
    simp
  constructor
  · intro hex
    cases hc1 : (get_user db username).isSome with
    | true =>
        refine ⟨⟨"Username already exists", ?_⟩, ?_⟩ <;> simp [register, hc1]
    | false =>
        have hc2 := hany.mpr hex
        refine ⟨⟨"Username or email already exists", ?_⟩, ?_⟩ <;>
          simp [register, hc1, hc2]
  · intro hnex
    have hc2 : db.users.any (fun u => u.username == username || u.email == email) = false := by
      rw [← Bool.not_eq_true, hany]
      exact hnex
    have hc1 : (get_user db username).isSome = false := by
      unfold get_user
      cases hg : db.users.find? (fun u => u.username == username) with
      | none => rfl
      | some u =>
          exfalso
          apply hnex
          refine ⟨u, List.mem_of_find?_eq_some hg, Or.inl ?_⟩
          have hp := List.find?_some hg
          simpa using hp
    constructor <;> simp [register, hc1, hc2]

/-- Witness for C2 at concrete inputs: registering a taken username fails
with the store unchanged; registering a fresh username and email appends the
new hashed-password row. -/
theorem claim_C2_register_unique_username_email_witness :
    ((∃ msg, (register ⟨[⟨1, "alice", "a@x.com", "h"⟩], [], []⟩
        "alice" "b@x.com" "pw").1 = RegisterResult.render_register_flash msg) ∧
      (register ⟨[⟨1, "alice", "a@x.com", "h"⟩], [], []⟩ "alice" "b@x.com" "pw").2 =
        ⟨[⟨1, "alice", "a@x.com", "h"⟩], [], []⟩) ∧
    ((register ⟨[⟨1, "alice", "a@x.com", "h"⟩], [], []⟩ "bob" "b@x.com" "pw").1 =
        RegisterResult.redirect_login ∧
      (register ⟨[⟨1, "alice", "a@x.com", "h"⟩], [], []⟩ "bob" "b@x.com" "pw").2.users =
        [⟨1, "alice", "a@x.com", "h"⟩] ++
          [⟨next_user_id ⟨[⟨1, "alice", "a@x.com", "h"⟩], [], []⟩,
            "bob", "b@x.com", generate_password_hash "pw"⟩]) := by
  constructor
  · exact (claim_C2_register_unique_username_email
      ⟨[⟨1, "alice", "a@x.com", "h"⟩], [], []⟩ "alice" "b@x.com" "pw").1
      ⟨⟨1, "alice", "a@x.com", "h"⟩, by decide, Or.inl rfl⟩
  · exact (claim_C2_register_unique_username_email
      ⟨[⟨1, "alice", "a@x.com", "h"⟩], [], []⟩ "bob" "b@x.com" "pw").2
      (by decide)

/-- Equation lemma exposing the authenticated branch of the stats-update
handler, with the session scrutinee already reduced. -/
theorem update_game_stats_some (db : DB) (s : Sess) (result : Option String) :
    update_game_stats db (some s) result =
      (match db.game_stats.find? (fun g => g.user_id == s.user_id) with
        | some st =>
          let wlt : Int × Int × Int :=
            if result == some "win" then (st.wins + 1, st.losses, st.ties)
            else if result == some "loss" then (st.wins, st.losses + 1, st.ties)
            else if result == some "tie" then (st.wins, st.losses, st.ties + 1)
            else (st.wins, st.losses, st.ties)
          (StatsResponse.success,
            ⟨db.users, db.notes,
              db.game_stats.map (fun g =>
                if g.user_id == s.user_id then ⟨g.user_id, wlt.1, wlt.2.1, wlt.2.2⟩
                else g)⟩)
        | none =>
          (StatsResponse.success,
            ⟨db.users, db.notes, db.game_stats ++
              [⟨s.user_id, if result == some "win" then 1 else 0,
                if result == some "loss" then 1 else 0,
                if result == some "tie" then 1 else 0⟩]⟩)) := rfl

/-- C4: an authenticated stats update on an account that already has a stats
row succeeds and leaves the account's row with exactly the counter matching
the reported result incremented by one and the other two unchanged (a result
outside win/loss/tie increments none of them, yet the call still succeeds);
concretely, reporting win, win, loss starting from no row yields wins 2,
losses 1, ties 0. -/
theorem claim_C4_stats_update_increments_matching_counter
    (db : DB) (s : Sess) (st : GameStats) (result : Option String)
    (hst : statsOf db s.user_id = some st) :
    ((update_game_stats db (some s) result).1 = StatsResponse.success ∧
      statsOf (update_game_stats db (some s) result).2 s.user_id =
        some ⟨st.user_id,
          st.wins + (if result = some "win" then 1 else 0),
          st.losses + (if result = some "loss" then 1 else 0),
          st.ties + (if result = some "tie" then 1 else 0)⟩) ∧
    (run_results ⟨[⟨1, "alice", "a@x.com", "h"⟩], [], []⟩ (some ⟨1, "alice"⟩)
        [some "win", some "win", some "loss"]).game_stats = [⟨1, 2, 1, 0⟩] := by
  refine ⟨?_, by decide⟩
  unfold statsOf at hst ⊢
  have hpst : (st.user_id == s.user_id) = true := by
    have h2 := List.find?_some hst
    exact h2
  have hmap : ∀ W L T : Int,
      (db.game_stats.map (fun g =>
          if g.user_id == s.user_id then (⟨g.user_id, W, L, T⟩ : GameStats)
          else g)).find? (fun g => g.user_id == s.user_id) =
        some ⟨st.user_id, W, L, T⟩ := by
    intro W L T
    rw [find?_map_pres]
    · rw [hst, Option.map_some']
      simp [hpst]
    · intro g
      by_cases hg : (g.user_id == s.user_id) = true <;> simp [hg]
  have main : ∀ W L T : Int,
      update_game_stats db (some s) result =
        (StatsResponse.success, ⟨db.users, db.notes, db.game_stats.map (fun g =>
          if g.user_id == s.user_id then (⟨g.user_id, W, L, T⟩ : GameStats)
          else g)⟩) →
      (update_game_stats db (some s) result).1 = StatsResponse.success ∧
      List.find? (fun g => g.user_id == s.user_id)
          (update_game_stats db (some s) result).2.game_stats =
        some ⟨st.user_id, W, L, T⟩ := by
    intro W L T heq
    rw [heq]
    exact ⟨rfl, hmap W L T⟩
  by_cases hw : result = some "win"
  · subst hw
    have h2 := main (st.wins + 1) st.losses st.ties
      (by rw [update_game_stats_some, hst]; rfl)
    refine ⟨h2.1, ?_⟩
    rw [h2.2]
    simp
  by_cases hl : result = some "loss"
  · subst hl
    have h2 := main st.wins (st.losses + 1) st.ties
      (by rw [update_game_stats_some, hst]; rfl)
    refine ⟨h2.1, ?_⟩
    rw [h2.2]
    simp
  by_cases ht : result = some "tie"
  · subst ht
    have h2 := main st.wins st.losses (st.ties + 1)
      (by rw [update_game_stats_some, hst]; rfl)
    refine ⟨h2.1, ?_⟩
    rw [h2.2]
    simp
  · have hbw : (result == some "win") = false := by simp [hw]
    have hbl : (result == some "loss") = false := by simp [hl]
    have hbt : (result == some "tie") = false := by simp [ht]
    have h2 := main st.wins st.losses st.ties
      (by rw [update_game_stats_some, hst]; simp [hbw, hbl, hbt])
    refine ⟨h2.1, ?_⟩
    rw [h2.2]
    simp [hw, hl, ht]

/-- Witness for C4 at a concrete store: an account with row (2, 3, 4)
reporting a win ends with row (3, 3, 4) and a success response. -/
theorem claim_C4_stats_update_increments_matching_counter_witness :
    (update_game_stats ⟨[⟨1, "al", "a@x.com", "h"⟩], [], [⟨1, 2, 3, 4⟩]⟩
        (some ⟨1, "al"⟩) (some "win")).1 = StatsResponse.success ∧
    statsOf (update_game_stats ⟨[⟨1, "al", "a@x.com", "h"⟩], [], [⟨1, 2, 3, 4⟩]⟩
        (some ⟨1, "al"⟩) (some "win")).2 1 = some ⟨1, 3, 3, 4⟩ := by
  have h := (claim_C4_stats_update_increments_matching_counter
    ⟨[⟨1, "al", "a@x.com", "h"⟩], [], [⟨1, 2, 3, 4⟩]⟩ ⟨1, "al"⟩ ⟨1, 2, 3, 4⟩
    (some "win") (by decide)).1
  simpa using h

/-- C5: the first reported valid game result (win, loss or tie) for an
account with no stats row succeeds and creates the account's single row with
exactly the matching counter at 1 and the other two at 0. -/
theorem claim_C5_first_result_creates_singleton_row
    (db : DB) (s : Sess) (result : String)
    (h0 : statsOf db s.user_id = none)
    (hr : result = "win" ∨ result = "loss" ∨ result = "tie") :
    (update_game_stats db (some s) (some result)).1 = StatsResponse.success ∧
    statsCount (update_game_stats db (some s) (some result)).2 s.user_id = 1 ∧
    (result = "win" → (update_game_stats db (some s) (some result)).2.game_stats =
      db.game_stats ++ [⟨s.user_id, 1, 0, 0⟩]) ∧
    (result = "loss" → (update_game_stats db (some s) (some result)).2.game_stats =
      db.game_stats ++ [⟨s.user_id, 0, 1, 0⟩]) ∧
    (result = "tie" → (update_game_stats db (some s) (some result)).2.game_stats =
      db.game_stats ++ [⟨s.user_id, 0, 0, 1⟩]) := by
  unfold statsOf at h0
  have hc0 : db.game_stats.countP (fun g => g.user_id == s.user_id) = 0 :=
    List.countP_eq_zero.mpr (List.find?_eq_none.mp h0)
  rcases hr with h | h | h <;> subst h
  · exact ⟨by simp [update_game_stats, h0],
      by simp [statsCount, update_game_stats, h0, hc0],
      fun hh => by simp [update_game_stats, h0],
      fun hh => by simp at hh,
      fun hh => by simp at hh⟩
  · exact ⟨by simp [update_game_stats, h0],
      by simp [statsCount, update_game_stats, h0, hc0],
      fun hh => by simp at hh,
      fun hh => by simp [update_game_stats, h0],
      fun hh => by simp at hh⟩
  · exact ⟨by simp [update_game_stats, h0],
      by simp [statsCount, update_game_stats, h0, hc0],
      fun hh => by simp at hh,
      fun hh => by simp at hh,
      fun hh => by simp [update_game_stats, h0]⟩

/-- Witness for C5 at a concrete store: the first reported tie creates the
row (0, 0, 1). -/
theorem claim_C5_first_result_creates_singleton_row_witness :
    (update_game_stats ⟨[⟨1, "al", "a@x.com", "h"⟩], [], []⟩
        (some ⟨1, "al"⟩) (some "tie")).1 = StatsResponse.success ∧
    statsCount (update_game_stats ⟨[⟨1, "al", "a@x.com", "h"⟩], [], []⟩
        (some ⟨1, "al"⟩) (some "tie")).2 1 = 1 ∧
    (update_game_stats ⟨[⟨1, "al", "a@x.com", "h"⟩], [], []⟩
        (some ⟨1, "al"⟩) (some "tie")).2.game_stats = [] ++ [⟨1, 0, 0, 1⟩] := by
  have h := claim_C5_first_result_creates_singleton_row
    ⟨[⟨1, "al", "a@x.com", "h"⟩], [], []⟩ ⟨1, "al"⟩ "tie" (by decide)
    (Or.inr (Or.inr rfl))
  exact ⟨h.1, h.2.1, h.2.2.2.2 rfl⟩

/-- Membership in an insertion step of the leaderboard sort. -/
theorem mem_lbInsert (p q : String × Int) (l : List (String × Int)) :
    q ∈ lbInsert p l ↔ q = p ∨ q ∈ l := by
  induction l with
  | nil => simp [lbInsert]
  | cons a t ih =>
      by_cases h : a.2 ≤ p.2
      · rw [lbInsert, if_pos h, List.mem_cons, List.mem_cons]
      · rw [lbInsert, if_neg h, List.mem_cons, ih, List.mem_cons]
        tauto

/-- The leaderboard sort permutes membership. -/
theorem mem_lbSort (q : String × Int) (l : List (String × Int)) :
    q ∈ lbSort l ↔ q ∈ l := by
  induction l with
  | nil => simp [lbSort]
  | cons a t ih =>
      rw [lbSort]
      rw [mem_lbInsert]
      simp [List.mem_cons, ih]

/-- Inserting keeps the list sorted descending by wins. -/
theorem pairwise_lbInsert (p : String × Int) (l : List (String × Int))
    (h : l.Pairwise (fun a b => b.2 ≤ a.2)) :
    (lbInsert p l).Pairwise (fun a b => b.2 ≤ a.2) := by
  induction l with
  | nil => simp [lbInsert]
  | cons a t ih =>
      rcases List.pairwise_cons.mp h with ⟨ha, ht⟩
      by_cases hc : a.2 ≤ p.2
      · rw [lbInsert, if_pos hc]
        refine List.pairwise_cons.mpr ⟨?_, h⟩
        intro x hx
        rcases List.mem_cons.mp hx with h1 | h2
        · rw [h1]; exact hc
        · exact le_trans (ha x h2) hc
      · rw [lbInsert, if_neg hc]
        refine List.pairwise_cons.mpr ⟨?_, ih ht⟩
        intro x hx
        rcases (mem_lbInsert p x t).mp hx with h1 | h2
        · rw [h1]; exact le_of_lt (lt_of_not_le hc)
        · exact ha x h2

/-- The leaderboard sort produces a list sorted descending by wins. -/
theorem pairwise_lbSort (l : List (String × Int)) :
    (lbSort l).Pairwise (fun a b => b.2 ≤ a.2) := by
  induction l with
  | nil => simp [lbSort]
  | cons a t ih =>
      rw [lbSort]
      exact pairwise_lbInsert a (lbSort t) ih

/-- Characterization of the rows produced by the leaderboard join. -/
theorem mem_leaderboard_rows (db : DB) (p : String × Int) :
    p ∈ leaderboard_rows db ↔
      ∃ u ∈ db.users, ∃ g ∈ db.game_stats,
        g.user_id = u.id ∧ 0 < g.wins ∧ p = (u.username, g.wins) := by
  simp only [leaderboard_rows, List.mem_flatMap, List.mem_filterMap]
  constructor
  · rintro ⟨u, hu, g, hg, hif⟩
    by_cases hc : g.user_id = u.id ∧ 0 < g.wins
    · rw [if_pos hc] at hif
      exact ⟨u, hu, g, hg, hc.1, hc.2, (Option.some.inj hif).symm⟩
    · rw [if_neg hc] at hif
      cases hif
  · rintro ⟨u, hu, g, hg, h1, h2, h3⟩
    exact ⟨u, hu, g, hg, by rw [if_pos ⟨h1, h2⟩, h3]⟩

/-- C6: every leaderboard entry comes from a join row with strictly positive
wins, the list is ordered descending by wins, and it has at most 5 entries;
concretely, with five accounts whose wins are 5, 3, 3, 1, 0 the query
returns exactly the four positive-wins accounts in descending order, the
two wins-3 entries adjacent. -/
theorem claim_C6_leaderboard_top5_positive_descending (db : DB) :
    ((∀ p ∈ leaderboard_query db, ∃ u ∈ db.users, ∃ g ∈ db.game_stats,
        g.user_id = u.id ∧ 0 < g.wins ∧ p = (u.username, g.wins)) ∧
      (leaderboard_query db).Pairwise (fun p q => q.2 ≤ p.2) ∧
      (leaderboard_query db).length ≤ 5) ∧
    leaderboard_query
        ⟨[⟨1, "u5", "e1", "h"⟩, ⟨2, "u3a", "e2", "h"⟩, ⟨3, "u3b", "e3", "h"⟩,
            ⟨4, "u1", "e4", "h"⟩, ⟨5, "u0", "e5", "h"⟩],
          [],
          [⟨1, 5, 0, 0⟩, ⟨2, 3, 0, 0⟩, ⟨3, 3, 0, 0⟩, ⟨4, 1, 0, 0⟩,
            ⟨5, 0, 0, 0⟩]⟩ =
      [("u5", 5), ("u3a", 3), ("u3b", 3), ("u1", 1)] := by
  refine ⟨⟨?_, ?_, ?_⟩, by decide⟩
  · intro p hp
    have h1 : p ∈ lbSort (leaderboard_rows db) := List.mem_of_mem_take hp
    have h2 : p ∈ leaderboard_rows db := (mem_lbSort p _).mp h1
    exact (mem_leaderboard_rows db p).mp h2
  · exact List.Pairwise.sublist (List.take_sublist 5 _) (pairwise_lbSort _)
  · exact List.length_take_le 5 _

/-- Witness for C6: the top entry of the concrete example indeed comes from
a join row with positive wins. -/
theorem claim_C6_leaderboard_top5_positive_descending_witness :
    ∃ u ∈ ([⟨1, "u5", "e1", "h"⟩, ⟨2, "u3a", "e2", "h"⟩, ⟨3, "u3b", "e3", "h"⟩,
        ⟨4, "u1", "e4", "h"⟩, ⟨5, "u0", "e5", "h"⟩] : List Account),
      ∃ g ∈ ([⟨1, 5, 0, 0⟩, ⟨2, 3, 0, 0⟩, ⟨3, 3, 0, 0⟩, ⟨4, 1, 0, 0⟩,
          ⟨5, 0, 0, 0⟩] : List GameStats),
        g.user_id = u.id ∧ 0 < g.wins ∧
          (("u5", (5 : Int)) : String × Int) = (u.username, g.wins) :=
  (claim_C6_leaderboard_top5_positive_descending
      ⟨[⟨1, "u5", "e1", "h"⟩, ⟨2, "u3a", "e2", "h"⟩, ⟨3, "u3b", "e3", "h"⟩,
          ⟨4, "u1", "e4", "h"⟩, ⟨5, "u0", "e5", "h"⟩],
        [],
        [⟨1, 5, 0, 0⟩, ⟨2, 3, 0, 0⟩, ⟨3, 3, 0, 0⟩, ⟨4, 1, 0, 0⟩,
          ⟨5, 0, 0, 0⟩]⟩).1.1 ("u5", 5) (by decide)

/-- One notepad save is an upsert: starting from at most one row for this
account, afterwards exactly one row exists, it holds the saved content and
timestamp, and the other tables are untouched. -/
theorem notepad_save_upsert (db : DB) (uid : Nat) (c : String) (t : Nat)
    (h : db.notes.countP (fun n => n.user_id == uid) ≤ 1) :
    (notepad_save db uid c t).notes.countP (fun n => n.user_id == uid) = 1 ∧
    (notepad_save db uid c t).notes.find? (fun n => n.user_id == uid) =
      some ⟨uid, c, t⟩ ∧
    (notepad_save db uid c t).users = db.users ∧
    (notepad_save db uid c t).game_stats = db.game_stats := by
  unfold notepad_save
  cases hf : db.notes.find? (fun n => n.user_id == uid) with
  | none =>
      have hc0 : db.notes.countP (fun n => n.user_id == uid) = 0 :=
        List.countP_eq_zero.mpr (List.find?_eq_none.mp hf)
      refine ⟨?_, ?_, rfl, rfl⟩
      · show (db.notes ++ [(⟨uid, c, t⟩ : Note)]).countP
            (fun n => n.user_id == uid) = 1
        rw [List.countP_append, hc0]
        simp [List.countP_cons]
      · show (db.notes ++ [(⟨uid, c, t⟩ : Note)]).find?
            (fun n => n.user_id == uid) = some ⟨uid, c, t⟩
        rw [List.find?_append, hf]
        simp [List.find?]
  | some n =>
      have hpn : (n.user_id == uid) = true := by
        have h2 := List.find?_some hf
        exact h2
      have hpos : 0 < db.notes.countP (fun n => n.user_id == uid) :=
        List.countP_pos_iff.mpr ⟨n, List.mem_of_find?_eq_some hf, hpn⟩
      have hcnt : db.notes.countP (fun n => n.user_id == uid) = 1 :=
        le_antisymm h hpos
      have hpres : ∀ a : Note,
          ((if a.user_id == uid then (⟨a.user_id, c, t⟩ : Note) else a).user_id
            == uid) = (a.user_id == uid) := by
        intro a
        by_cases ha : (a.user_id == uid) = true <;> simp [ha]
      refine ⟨?_, ?_, rfl, rfl⟩
      · show (db.notes.map (fun a =>
            if a.user_id == uid then (⟨a.user_id, c, t⟩ : Note) else a)).countP
            (fun n => n.user_id == uid) = 1
        rw [countP_map_pres _ _ hpres]
        exact hcnt
      · show (db.notes.map (fun a =>
            if a.user_id == uid then (⟨a.user_id, c, t⟩ : Note) else a)).find?
            (fun n => n.user_id == uid) = some ⟨uid, c, t⟩
        rw [find?_map_pres _ _ hpres, hf, Option.map_some']
        have he : n.user_id = uid := by simpa using hpn
        rw [if_pos hpn, he]

/-- C7: note saving is an upsert preserving the at-most-one-row invariant:
after any nonempty sequence of authenticated saves by one account (starting
from at most one row for it), exactly one `notes` row exists for the account
and it holds the content and timestamp of the last save. -/
theorem claim_C7_note_upsert_sequence
    (db : DB) (s : Sess) (saves : List (String × Nat)) (c : String) (t : Nat)
    (h : noteCount db s.user_id ≤ 1)
    (hlast : saves.getLast? = some (c, t)) :
    noteCount (run_saves db s saves) s.user_id = 1 ∧
    (run_saves db s saves).notes.find? (fun n => n.user_id == s.user_id) =
      some ⟨s.user_id, c, t⟩ := by
  induction saves generalizing db c t with
  | nil => simp at hlast
  | cons p rest ih =>
      obtain ⟨c0, t0⟩ := p
      have hstep := notepad_save_upsert db s.user_id c0 t0 h
      have hrun : run_saves db s ((c0, t0) :: rest) =
          run_saves (notepad_save db s.user_id c0 t0) s rest := rfl
      rw [hrun]
      cases rest with
      | nil =>
          have hct : c0 = c ∧ t0 = t := by simpa using hlast
          obtain ⟨hc, ht⟩ := hct
          rw [← hc, ← ht]
          exact ⟨hstep.1, hstep.2.1⟩
      | cons q rs =>
          have hlast2 : (q :: rs).getLast? = some (c, t) := by
            simpa using hlast
          exact ih _ c t (le_of_eq hstep.1) hlast2

/-- Witness for C7: two concrete saves by one account leave exactly one row
holding the second save's content and timestamp. -/
theorem claim_C7_note_upsert_sequence_witness :
    noteCount (run_saves ⟨[⟨1, "al", "a@x.com", "h"⟩], [], []⟩ ⟨1, "al"⟩
        [("first", 10), ("second", 20)]) 1 = 1 ∧
    (run_saves ⟨[⟨1, "al", "a@x.com", "h"⟩], [], []⟩ ⟨1, "al"⟩
        [("first", 10), ("second", 20)]).notes.find?
        (fun n => n.user_id == 1) = some ⟨1, "second", 20⟩ :=
  claim_C7_note_upsert_sequence ⟨[⟨1, "al", "a@x.com", "h"⟩], [], []⟩ ⟨1, "al"⟩
    [("first", 10), ("second", 20)] "second" 20 (by decide) (by decide)

/-- The notepad handler never touches the `game_stats` table. -/
theorem notepad_preserves_game_stats (db : DB) (sess : Option Sess)
    (post : Option String) (now : Nat) :
    (notepad db sess post now).2.game_stats = db.game_stats := by
  cases sess with
  | none => rfl
  | some s =>
      cases post with
      | none => rfl
      | some c =>
          show (notepad_save db s.user_id c now).game_stats = db.game_stats
          unfold notepad_save
          cases db.notes.find? (fun n => n.user_id == s.user_id) <;> rfl

/-- Database startup never touches the `game_stats` table. -/
theorem init_db_preserves_game_stats (db : DB) :
    (init_db db).game_stats = db.game_stats := by
  unfold init_db
  split <;> rfl

/-- A state whose `game_stats` table is unchanged satisfies both halves of
the C8 obligation relative to the old state. -/
theorem stats_table_eq_props {db db2 : DB} (hgs : db2.game_stats = db.game_stats) :
    (statsInv db → statsInv db2) ∧
    (∀ uid st, statsOf db uid = some st →
      ∃ st', statsOf db2 uid = some st' ∧
        st.wins ≤ st'.wins ∧ st.losses ≤ st'.losses ∧ st.ties ≤ st'.ties) := by
  constructor
  · intro hinv
    constructor
    · intro uid
      show statsCount db2 uid ≤ 1
      unfold statsCount
      rw [hgs]
      exact hinv.1 uid
    · intro g hg
      rw [hgs] at hg
      exact hinv.2 g hg
  · intro uid st hst
    refine ⟨st, ?_, le_refl _, le_refl _, le_refl _⟩
    unfold statsOf at hst ⊢
    rw [hgs]
    exact hst

/-- Core facts about the UPDATE branch of the stats handler: rewriting the
owner's row to componentwise-larger values keeps the per-account row count,
keeps non-negativity, and never decreases any account's counters. -/
theorem stats_map_props (db : DB) (s : Sess) (st0 : GameStats) (W L T : Int)
    (hf : db.game_stats.find? (fun g => g.user_id == s.user_id) = some st0)
    (hW : st0.wins ≤ W) (hL : st0.losses ≤ L) (hT : st0.ties ≤ T) :
    (statsInv db →
      ((∀ uid, (db.game_stats.map (fun g =>
          if g.user_id == s.user_id then (⟨g.user_id, W, L, T⟩ : GameStats)
          else g)).countP (fun g => g.user_id == uid) ≤ 1) ∧
        ∀ g ∈ db.game_stats.map (fun g =>
            if g.user_id == s.user_id then (⟨g.user_id, W, L, T⟩ : GameStats)
            else g),
          0 ≤ g.wins ∧ 0 ≤ g.losses ∧ 0 ≤ g.ties)) ∧
    (∀ uid st, db.game_stats.find? (fun g => g.user_id == uid) = some st →
      ∃ st', (db.game_stats.map (fun g =>
          if g.user_id == s.user_id then (⟨g.user_id, W, L, T⟩ : GameStats)
          else g)).find? (fun g => g.user_id == uid) = some st' ∧
        st.wins ≤ st'.wins ∧ st.losses ≤ st'.losses ∧ st.ties ≤ st'.ties) := by
  have hpres : ∀ (uid : Nat) (a : GameStats),
      ((if a.user_id == s.user_id then (⟨a.user_id, W, L, T⟩ : GameStats)
        else a).user_id == uid) = (a.user_id == uid) := by
    intro uid a
    by_cases ha : (a.user_id == s.user_id) = true <;> simp [ha]
  constructor
  · intro hinv
    constructor
    · intro uid
      rw [countP_map_pres _ _ (hpres uid)]
      exact hinv.1 uid
    · intro g hg
      rcases List.mem_map.mp hg with ⟨a, ha, hae⟩
      rw [← hae]
      by_cases hc : (a.user_id == s.user_id) = true
      · rw [if_pos hc]
        have h0 := hinv.2 st0 (List.mem_of_find?_eq_some hf)
        exact ⟨le_trans h0.1 hW, le_trans h0.2.1 hL, le_trans h0.2.2 hT⟩
      · rw [if_neg hc]
        exact hinv.2 a ha
  · intro uid st hst
    rw [find?_map_pres _ _ (hpres uid), hst, Option.map_some']
    by_cases hc : (st.user_id == s.user_id) = true
    · have h1 : st.user_id = uid := by
        have h2 := List.find?_some hst
        simpa using h2
      have h2 : st.user_id = s.user_id := by simpa using hc
      have h3 : uid = s.user_id := h1.symm.trans h2
      rw [h3] at hst
      have h4 : st = st0 := Option.some.inj (hst.symm.trans hf)
      refine ⟨⟨st.user_id, W, L, T⟩, by rw [if_pos hc], ?_, ?_, ?_⟩
      · rw [h4]; exact hW
      · rw [h4]; exact hL
      · rw [h4]; exact hT
    · rw [if_neg hc]
      exact ⟨st, rfl, le_refl _, le_refl _, le_refl _⟩

/-- The stats-update handler itself satisfies both halves of the C8
obligation. -/
theorem update_stats_step_props (db : DB) (sess : Option Sess) (r : Option String) :
    (statsInv db → statsInv (update_game_stats db sess r).2) ∧
    (∀ uid st, statsOf db uid = some st →
      ∃ st', statsOf (update_game_stats db sess r).2 uid = some st' ∧
        st.wins ≤ st'.wins ∧ st.losses ≤ st'.losses ∧ st.ties ≤ st'.ties) := by
  cases sess with
  | none => exact stats_table_eq_props rfl
  | some s =>
    cases hf : db.game_stats.find? (fun g => g.user_id == s.user_id) with
    | none =>
        have key := update_game_stats_some db s r
        simp only [hf] at key
        have hc0 : db.game_stats.countP (fun g => g.user_id == s.user_id) = 0 :=
          List.countP_eq_zero.mpr (List.find?_eq_none.mp hf)
        constructor
        · intro hinv
          constructor
          · intro uid
            show statsCount _ uid ≤ 1
            unfold statsCount
            rw [key]
            show (db.game_stats ++
                [(⟨s.user_id, if r == some "win" then 1 else 0,
                  if r == some "loss" then 1 else 0,
                  if r == some "tie" then 1 else 0⟩ : GameStats)]).countP
                (fun g => g.user_id == uid) ≤ 1
            rw [List.countP_append]
            by_cases hu : uid = s.user_id
            · rw [hu, hc0]
              simp [List.countP_cons]
            · have h1 : statsCount db uid ≤ 1 := hinv.1 uid
              unfold statsCount at h1
              have h3 : List.countP (fun g => g.user_id == uid)
                  [(⟨s.user_id, if r == some "win" then 1 else 0,
                    if r == some "loss" then 1 else 0,
                    if r == some "tie" then 1 else 0⟩ : GameStats)] = 0 := by
                simp [List.countP_cons, Ne.symm hu]
              omega
          · intro g hg
            rw [key] at hg
            rcases List.mem_append.mp hg with h1 | h2
            · exact hinv.2 g h1
            · have h3 := List.mem_singleton.mp h2
              rw [h3]
              refine ⟨?_, ?_, ?_⟩
              · show (0:Int) ≤ if (r == some "win") = true then 1 else 0
                split <;> norm_num
              · show (0:Int) ≤ if (r == some "loss") = true then 1 else 0
                split <;> norm_num
              · show (0:Int) ≤ if (r == some "tie") = true then 1 else 0
                split <;> norm_num
        · intro uid st hst
          unfold statsOf at hst ⊢
          rw [key]
          refine ⟨st, ?_, le_refl _, le_refl _, le_refl _⟩
          show (db.game_stats ++
              [(⟨s.user_id, if r == some "win" then 1 else 0,
                if r == some "loss" then 1 else 0,
                if r == some "tie" then 1 else 0⟩ : GameStats)]).find?
              (fun g => g.user_id == uid) = some st
          rw [List.find?_append, hst]
          rfl
    | some st0 =>
        have key := update_game_stats_some db s r
        simp only [hf] at key
        obtain ⟨wlt, hwlt⟩ : ∃ wlt : Int × Int × Int, wlt =
            (if r == some "win" then (st0.wins + 1, st0.losses, st0.ties)
            else if r == some "loss" then (st0.wins, st0.losses + 1, st0.ties)
            else if r == some "tie" then (st0.wins, st0.losses, st0.ties + 1)
            else (st0.wins, st0.losses, st0.ties)) := ⟨_, rfl⟩
        rw [← hwlt] at key
        have hb : st0.wins ≤ wlt.1 ∧ st0.losses ≤ wlt.2.1 ∧ st0.ties ≤ wlt.2.2 := by
          rw [hwlt]
          split
          · exact ⟨le_of_lt (lt_add_one _), le_refl _, le_refl _⟩
          · split
            · exact ⟨le_refl _, le_of_lt (lt_add_one _), le_refl _⟩
            · split
              · exact ⟨le_refl _, le_refl _, le_of_lt (lt_add_one _)⟩
              · exact ⟨le_refl _, le_refl _, le_refl _⟩
        have hmp := stats_map_props db s st0 wlt.1 wlt.2.1 wlt.2.2 hf
          hb.1 hb.2.1 hb.2.2
        constructor
        · intro hinv
          have h2 := hmp.1 hinv
          constructor
          · intro uid
            show statsCount _ uid ≤ 1
            unfold statsCount
            rw [key]
            exact h2.1 uid
          · intro g hg
            rw [key] at hg
            exact h2.2 g hg
        · intro uid st hst
          unfold statsOf at hst ⊢
          rw [key]
          exact hmp.2 uid st hst

/-- C8: every request of the application preserves the GameStats invariants
(at most one row per account, all counters non-negative) and never decreases
any counter of any account's row. -/
theorem claim_C8_every_operation_preserves_stats_invariants
    (db : DB) (sess : Option Sess) (req : Req) :
    (statsInv db → statsInv (step db sess req).1) ∧
    (∀ uid st, statsOf db uid = some st →
      ∃ st', statsOf (step db sess req).1 uid = some st' ∧
        st.wins ≤ st'.wins ∧ st.losses ≤ st'.losses ∧ st.ties ≤ st'.ties) := by
  cases req with
  | landing => exact stats_table_eq_props rfl
  | login_post u p => exact stats_table_eq_props rfl
  | register_post u e p =>
      exact stats_table_eq_props (register_preserves_other_tables db u e p).2
  | dashboard_get => exact stats_table_eq_props rfl
  | notepad_req post now =>
      exact stats_table_eq_props (notepad_preserves_game_stats db sess post now)
  | tictactoe_get => exact stats_table_eq_props rfl
  | update_stats r => exact update_stats_step_props db sess r
  | wordgame_get => exact stats_table_eq_props rfl
  | logout_get => exact stats_table_eq_props rfl
  | startup => exact stats_table_eq_props (init_db_preserves_game_stats db)

/-- Witness for C8 at a concrete state: one account with row (2, 0, 1)
reporting a win keeps the invariants and does not decrease any counter. -/
theorem claim_C8_every_operation_preserves_stats_invariants_witness :
    statsInv (step ⟨[⟨1, "al", "a@x.com", "h"⟩], [], [⟨1, 2, 0, 1⟩]⟩
      (some ⟨1, "al"⟩) (Req.update_stats (some "win"))).1 ∧
    ∃ st', statsOf (step ⟨[⟨1, "al", "a@x.com", "h"⟩], [], [⟨1, 2, 0, 1⟩]⟩
        (some ⟨1, "al"⟩) (Req.update_stats (some "win"))).1 1 = some st' ∧
      (⟨1, 2, 0, 1⟩ : GameStats).wins ≤ st'.wins ∧
      (⟨1, 2, 0, 1⟩ : GameStats).losses ≤ st'.losses ∧
      (⟨1, 2, 0, 1⟩ : GameStats).ties ≤ st'.ties := by
  have h := claim_C8_every_operation_preserves_stats_invariants
    ⟨[⟨1, "al", "a@x.com", "h"⟩], [], [⟨1, 2, 0, 1⟩]⟩ (some ⟨1, "al"⟩)
    (Req.update_stats (some "win"))
  refine ⟨h.1 ⟨?_, ?_⟩, h.2 1 ⟨1, 2, 0, 1⟩ (by decide)⟩
  · intro uid
    have h1 : statsCount ⟨[⟨1, "al", "a@x.com", "h"⟩], [], [⟨1, 2, 0, 1⟩]⟩ uid ≤
        ([(⟨1, 2, 0, 1⟩ : GameStats)].length) := List.countP_le_length _
    simpa using h1
  · intro g hg
    have h3 := List.mem_singleton.mp hg
    rw [h3]
    refine ⟨by norm_num, by norm_num, by norm_num⟩

end App
